import Mathlib

/-!
Verification of the physics/collision step and the radar sensor model of the
oort3 simulation core.

The first part embeds `Simulation::step` from `src/simulation.rs`: the drain of
queued contact events, the bullet-vs-ship destruction policy and the `collided`
diagnostic flag.  The second part embeds the radar plugin from
`script/rhai/radar.rs`: `set_heading`, `set_width`, `scan`, `compute_beam`,
`compute_rssi`, `compute_approx_range`, `noise` and `draw_beam`.

Machine floats are embedded as real numbers; the physics backend (rapier) is
external to the repository, so a step acts on the event queues it produced.
Parts of the repository that the embedded files use but whose sources are not
available (the ship data accessors, the `rng` module, `explode`,
`emit_debug_lines`) are modelled from the spec and marked as such.
-/

namespace Oort

/-! ## Collision model (`src/simulation.rs`) -/

/-- Contact events reported by the physics backend; `started` corresponds to
`ContactEvent::Started(h1, h2)`. -/
inductive ContactEvent where
  | started (h1 h2 : Nat)
  | stopped (h1 h2 : Nat)
deriving DecidableEq, Repr

/-- The `Simulation` state relevant to `step`: the ship and bullet index sets,
the collider set (collider handle paired with its optional parent body index),
the queued contact and intersection events produced by the physics pipeline,
and the `collided` diagnostic flag. -/
structure Simulation where
  ships : List Nat
  bullets : List Nat
  colliders : List (Nat × Option Nat)
  contactEvents : List ContactEvent
  intersectionEvents : List Nat
  collided : Bool
deriving DecidableEq, Repr

/-- Embeds the closure `get_index` in `Simulation::step`:
`self.colliders.get(h).and_then(|x| x.parent()).map(|x| x.0)`. -/
def get_index (sim : Simulation) (h : Nat) : Option Nat :=
  (List.lookup h sim.colliders).join

/-- Modelled from the spec: `ShipAccessorMut::explode` is not among the
sources; per the spec the vehicle "is removed from the world and its physical
resources released", so it is removed from the ship set and its colliders are
dropped. -/
def explode (sim : Simulation) (handle : Nat) : Simulation :=
  { sim with
    ships := sim.ships.filter (fun s => s ≠ handle)
    colliders := sim.colliders.filter (fun c => c.2 ≠ some handle) }

/-- The body of the contact-event drain loop in `Simulation::step` for a single
drained event. -/
def processEvent (sim : Simulation) (e : ContactEvent) : Simulation :=
  match e with
  | .started h1 h2 =>
    let sim1 :=
      match get_index sim h1, get_index sim h2 with
      | some idx1, some idx2 =>
        if sim.bullets.contains idx1 && sim.ships.contains idx2 then
          explode sim idx2
        else if sim.bullets.contains idx2 && sim.ships.contains idx1 then
          explode sim idx1
        else
          sim
      | _, _ => sim
    { sim1 with collided := true }
  | .stopped _ _ => sim

/-- `Simulation::step`: after the physics pipeline runs (external; its output
is the queued events), every queued contact event is drained and processed in
order, then the intersection events are drained and discarded. -/
def step (sim : Simulation) : Simulation :=
  let sim1 := sim.contactEvents.foldl processEvent sim
  { sim1 with contactEvents := [], intersectionEvents := [] }

/-- Whether a contact event is a contact-start event. -/
def isContactStart : ContactEvent → Bool
  | .started _ _ => true
  | .stopped _ _ => false

/-! ## Radar sensor model (`script/rhai/radar.rs`) -/

/-- `std::f64::consts::TAU`. -/
noncomputable def TAU : ℝ := 2 * Real.pi

/-- Modelled from the spec: the `rng` module (`SeededRng`, `rng::new_rng`) is
not among the sources.  Per the spec the noise source is "a pseudo-random
source deterministically seeded from the simulation's current step counter";
it is modelled as a seed together with a position in that seed's draw
sequence, the draws themselves being supplied by an arbitrary stream
`stream : Nat → Nat → ℝ` mapping (seed, position) to a standard-normal draw. -/
structure SeededRng where
  seed : Nat
  index : Nat
deriving DecidableEq, Repr

/-- Modelled from the spec: `rng::new_rng(seed)` constructs the deterministic
generator for `seed`, positioned at the start of its draw sequence. -/
def new_rng (seed : Nat) : SeededRng := ⟨seed, 0⟩

/-- Modelled from the spec: `rng.sample(StandardNormal)` yields the next draw
of the generator's stream and advances the generator. -/
def sample (stream : Nat → Nat → ℝ) (rng : SeededRng) : ℝ × SeededRng :=
  (stream rng.seed rng.index, ⟨rng.seed, rng.index + 1⟩)

/-- Modelled from the spec: the `Radar` struct of `ship.rs` (not among the
sources), with the fields `radar.rs` uses: relative heading, beam aperture
width, transmit power, receive cross-section, minimum detectable
signal-strength threshold, and the per-step "already used" flag. -/
structure Radar where
  heading : ℝ
  width : ℝ
  power : ℝ
  rx_cross_section : ℝ
  min_rssi : ℝ
  scanned : Bool

/-- Modelled from the spec: the ship data `radar.rs` reads through the
accessors: team identifier, radar cross-section and the optional radar
capability. -/
structure ShipData where
  team : Nat
  radar_cross_section : ℝ
  radar : Option Radar

/-- Modelled from the spec: a ship's physical state (position, velocity,
orientation) together with its data. -/
structure Ship where
  position : ℝ × ℝ
  velocity : ℝ × ℝ
  heading : ℝ
  data : ShipData

/-- A debug-visualization line segment (`simulation::Line`). -/
structure Line where
  a : ℝ × ℝ
  b : ℝ × ℝ
  color : ℝ × ℝ × ℝ × ℝ

/-- The simulation state the radar plugin touches: the current step counter
(`sim.tick()`), the ship handles, each handle's ship state, and the emitted
debug lines. -/
structure World where
  tick : Nat
  ships : List Nat
  getShip : Nat → Ship
  debugLines : List Line

/-- Modelled from the spec: `Simulation::emit_debug_lines` appends the given
line segments to the emitted debug-visualization lines. -/
def emit_debug_lines (w : World) (lines : List Line) : World :=
  { w with debugLines := w.debugLines ++ lines }

/-- Applies `f` to the radar of ship `handle` when that ship has a radar
capability, and does nothing otherwise (`if let Some(radar) = ... .as_mut()`). -/
def updateRadar (w : World) (handle : Nat) (f : Radar → Radar) : World :=
  { w with getShip := fun h =>
      if h = handle then
        let s := w.getShip handle
        { s with data := { s.data with radar := s.data.radar.map f } }
      else w.getShip h }

/-- `plugin::set_heading`. -/
def set_heading (w : World) (handle : Nat) (heading : ℝ) : World :=
  updateRadar w handle (fun r => { r with heading := heading })

/-- `f64::clamp(lo, hi)`. -/
noncomputable def fclamp (x lo hi : ℝ) : ℝ :=
  if x < lo then lo else if x > hi then hi else x

/-- `plugin::set_width`: stores `width.clamp(TAU / 360.0, TAU)`. -/
noncomputable def set_width (w : World) (handle : Nat) (width : ℝ) : World :=
  updateRadar w handle (fun r => { r with width := fclamp width (TAU / 360) TAU })

/-- The flag assignment `radar.scanned = true` in `plugin::scan`. -/
def setScanned (w : World) (handle : Nat) : World :=
  updateRadar w handle (fun r => { r with scanned := true })

/-- The `RadarBeam` struct. -/
structure RadarBeam where
  center : ℝ × ℝ
  width : ℝ
  start_bearing : ℝ
  end_bearing : ℝ
  power : ℝ
  center_vec : ℝ × ℝ

/-- The dot product of two 2-d vectors (nalgebra `dot`). -/
def vdot (u v : ℝ × ℝ) : ℝ := u.1 * v.1 + u.2 * v.2

/-- The Euclidean norm of a 2-d vector (nalgebra `norm`). -/
noncomputable def vnorm (u : ℝ × ℝ) : ℝ := Real.sqrt (u.1 ^ 2 + u.2 ^ 2)

/-- nalgebra's `angle` between two vectors: zero when either norm is zero,
otherwise the arccosine of the normalized dot product (with the argument
clamped to `[-1, 1]`, which `Real.arccos` performs by definition). -/
noncomputable def vangle (u v : ℝ × ℝ) : ℝ :=
  if vnorm u = 0 ∨ vnorm v = 0 then 0
  else Real.arccos (vdot u v / (vnorm u * vnorm v))

/-- nalgebra's `distance_squared` between two points. -/
def dist_sq (a b : ℝ × ℝ) : ℝ := (b.1 - a.1) ^ 2 + (b.2 - a.2) ^ 2

/-- `compute_beam`. -/
noncomputable def compute_beam (radar : Radar) (ship_position : ℝ × ℝ)
    (ship_heading : ℝ) : RadarBeam :=
  let h := radar.heading + ship_heading
  let w := radar.width
  { center := ship_position
    power := radar.power
    width := w
    start_bearing := h - 0.5 * w
    end_bearing := h + 0.5 * w
    center_vec := (Real.cos h, Real.sin h) }

/-- `compute_rssi`.  The `unwrap()` of the source ship's radar capability is
modelled by returning `none` (the panic case) when the capability is absent;
note the angle test returns before the unwrap is reached. -/
noncomputable def compute_rssi (w : World) (beam : RadarBeam) (source target : Nat) :
    Option ℝ :=
  let other_position := (w.getShip target).position
  if vangle (other_position - beam.center) beam.center_vec > beam.width * 0.5 then
    some 0
  else
    let r_sq := dist_sq beam.center other_position
    let target_cross_section := (w.getShip target).data.radar_cross_section
    match (w.getShip source).data.radar with
    | none => none
    | some radar =>
      some (beam.power * target_cross_section * radar.rx_cross_section /
        (TAU * beam.width * r_sq))

/-- `compute_approx_range`. -/
noncomputable def compute_approx_range (radar : Radar) (beam : RadarBeam) : ℝ :=
  let target_cross_section : ℝ := 5
  Real.sqrt (beam.power * target_cross_section * radar.rx_cross_section /
    (TAU * beam.width * radar.min_rssi))

/-- `noise`: a 2-d vector of two consecutive standard-normal draws multiplied
by `1 / rssi`, returned together with the advanced generator. -/
noncomputable def noise (stream : Nat → Nat → ℝ) (rng : SeededRng) (rssi : ℝ) :
    (ℝ × ℝ) × SeededRng :=
  let s1 := sample stream rng
  let s2 := sample stream s1.2
  ((s1.1 * (1 / rssi), s2.1 * (1 / rssi)), s2.2)

/-- `draw_beam`: twenty arc segments at the approximate range plus the two
boundary rays, emitted as debug lines. -/
noncomputable def draw_beam (w : World) (radar : Radar) (beam : RadarBeam) : World :=
  let color : ℝ × ℝ × ℝ × ℝ := (0.1, 0.2, 0.3, 1)
  let n : Nat := 20
  let wd := beam.end_bearing - beam.start_bearing
  let center := beam.center
  let r := compute_approx_range radar beam
  let arcs := (List.range n).map (fun i =>
    let frac := (i : ℝ) / (n : ℝ)
    let angle_a := beam.start_bearing + wd * frac
    let angle_b := beam.start_bearing + wd * (frac + 1 / (n : ℝ))
    Line.mk (center + (r * Real.cos angle_a, r * Real.sin angle_a))
      (center + (r * Real.cos angle_b, r * Real.sin angle_b)) color)
  let lines := arcs ++
    [Line.mk center
      (center + (r * Real.cos beam.start_bearing, r * Real.sin beam.start_bearing)) color,
     Line.mk center
      (center + (r * Real.cos beam.end_bearing, r * Real.sin beam.end_bearing)) color]
  emit_debug_lines w lines

/-- The `ScanResult` struct. -/
structure ScanResult where
  found : Bool
  position : ℝ × ℝ
  velocity : ℝ × ℝ

/-- The initial `result` value in `plugin::scan`. -/
def scanEmptyResult : ScanResult := ⟨false, (0, 0), (0, 0)⟩

open Classical in
/-- The body of the target loop in `plugin::scan` for one candidate ship:
skip own-team ships; otherwise compute the signal strength and, when it beats
the threshold and the best seen so far, record a noised detection.  The
accumulator is `(result, best_rssi, rng)`; `none` propagates a
`compute_rssi` panic. -/
noncomputable def scanStep (stream : Nat → Nat → ℝ) (w : World) (beam : RadarBeam)
    (own_team source : Nat) (min_rssi : ℝ) (acc : ScanResult × ℝ × SeededRng)
    (other : Nat) : Option (ScanResult × ℝ × SeededRng) :=
  if (w.getShip other).data.team = own_team then some acc
  else
    match compute_rssi w beam source other with
    | none => none
    | some rssi =>
      if rssi > min_rssi ∧ (acc.1.found = false ∨ rssi > acc.2.1) then
        let n1 := noise stream acc.2.2 rssi
        let n2 := noise stream n1.2 rssi
        some (⟨true, (w.getShip other).position + n1.1, (w.getShip other).velocity + n2.1⟩,
          rssi, n2.2)
      else some acc

/-- The target loop of `plugin::scan`: a fold of `scanStep` over the ship
handles, starting from the empty result, best signal 0 and the given
generator. -/
noncomputable def scanAux (stream : Nat → Nat → ℝ) (w1 : World) (beam : RadarBeam)
    (own_team source : Nat) (min_rssi : ℝ) (rng0 : SeededRng) :
    Option (ScanResult × ℝ × SeededRng) :=
  w1.ships.foldlM (scanStep stream w1 beam own_team source min_rssi)
    (scanEmptyResult, 0, rng0)

/-- `plugin::scan`: consume the per-step flag (early return when already
consumed), compute the beam, reseed the generator from the current step
counter, run the target loop, draw the beam and return the best detection.
`none` is the (unreachable) panic case. -/
noncomputable def scanO (stream : Nat → Nat → ℝ) (w : World) (handle : Nat) :
    Option (ScanResult × World) :=
  match (w.getShip handle).data.radar with
  | none => some (scanEmptyResult, w)
  | some radar0 =>
    if radar0.scanned then some (scanEmptyResult, w)
    else
      let w1 := setScanned w handle
      match (w1.getShip handle).data.radar with
      | none => some (scanEmptyResult, w1)
      | some radar =>
        let beam := compute_beam radar ((w1.getShip handle).position)
          ((w1.getShip handle).heading)
        match scanAux stream w1 beam ((w1.getShip handle).data.team) handle
            radar.min_rssi (new_rng w1.tick) with
        | none => none
        | some (result, _, _) => some (result, draw_beam w1 radar beam)

/-- Modelled from the spec: the spec's description of the noise source as "a
single sequential stream reseeded once per World step" shared by the scans of
a step — the same scan body as `scanO`, but drawing from a caller-supplied
generator and returning the advanced generator so the next scan of the step
continues the same stream.  Used to compare the spec's description with the
code. -/
noncomputable def scanSpecRng (stream : Nat → Nat → ℝ) (rng0 : SeededRng) (w : World)
    (handle : Nat) : Option (ScanResult × World × SeededRng) :=
  match (w.getShip handle).data.radar with
  | none => some (scanEmptyResult, w, rng0)
  | some radar0 =>
    if radar0.scanned then some (scanEmptyResult, w, rng0)
    else
      let w1 := setScanned w handle
      match (w1.getShip handle).data.radar with
      | none => some (scanEmptyResult, w1, rng0)
      | some radar =>
        let beam := compute_beam radar ((w1.getShip handle).position)
          ((w1.getShip handle).heading)
        match scanAux stream w1 beam ((w1.getShip handle).data.team) handle
            radar.min_rssi rng0 with
        | none => none
        | some (result, _, rng1) => some (result, draw_beam w1 radar beam, rng1)

/-- Two successive scans by two sensors within the same step, as the code
performs them: each `scan` call reseeds its own generator internally. -/
noncomputable def scanPairCode (stream : Nat → Nat → ℝ) (w : World) (hA hB : Nat) :
    Option (ScanResult × ScanResult) :=
  match scanO stream w hA with
  | none => none
  | some (rA, w1) =>
    match scanO stream w1 hB with
    | none => none
    | some (rB, _) => some (rA, rB)

/-- Modelled from the spec: two successive scans by two sensors within the
same step drawing from "the same underlying sequential stream (reseeded once
per World step)" — the generator is seeded once from the step counter and the
second scan continues where the first left off. -/
noncomputable def scanPairSpec (stream : Nat → Nat → ℝ) (w : World) (hA hB : Nat) :
    Option (ScanResult × ScanResult) :=
  match scanSpecRng stream (new_rng w.tick) w hA with
  | none => none
  | some (rA, w1, rng1) =>
    match scanSpecRng stream rng1 w1 hB with
    | none => none
    | some (rB, _, _) => some (rA, rB)


/-- The value `compute_rssi` returns when the scanning ship's radar capability
is present; `rx` is that radar's receive cross-section. -/
noncomputable def rssiVal (w : World) (beam : RadarBeam) (target : Nat) (rx : ℝ) : ℝ :=
  if vangle ((w.getShip target).position - beam.center) beam.center_vec > beam.width * 0.5
  then 0
  else beam.power * (w.getShip target).data.radar_cross_section * rx /
    (TAU * beam.width * dist_sq beam.center ((w.getShip target).position))

open Classical in
/-- `scanStep` with the panic case removed: the total function it computes
when the scanning ship's radar capability is present. -/
noncomputable def scanStepT (stream : Nat → Nat → ℝ) (w : World) (beam : RadarBeam)
    (own_team : Nat) (rx min_rssi : ℝ) (acc : ScanResult × ℝ × SeededRng)
    (other : Nat) : ScanResult × ℝ × SeededRng :=
  if (w.getShip other).data.team = own_team then acc
  else
    let rssi := rssiVal w beam other rx
    if rssi > min_rssi ∧ (acc.1.found = false ∨ rssi > acc.2.1) then
      let n1 := noise stream acc.2.2 rssi
      let n2 := noise stream n1.2 rssi
      (⟨true, (w.getShip other).position + n1.1, (w.getShip other).velocity + n2.1⟩,
        rssi, n2.2)
    else acc

/-- A scan accumulator holds a detection of shape the scan loop produces: some
opposing-team ship whose signal strength is the recorded best, with position
and velocity perturbed by four consecutive draws of the step-seeded stream,
each scaled by the reciprocal of that signal strength. -/
def detShape (stream : Nat → Nat → ℝ) (w : World) (beam : RadarBeam)
    (own_team : Nat) (rx : ℝ) (s0 : Nat) (acc : ScanResult × ℝ × SeededRng) : Prop :=
  ∃ t ∈ w.ships, (w.getShip t).data.team ≠ own_team ∧
    rssiVal w beam t rx = acc.2.1 ∧
    ∃ k : Nat,
      acc.1.position = (w.getShip t).position +
        (stream s0 k * (1 / acc.2.1), stream s0 (k + 1) * (1 / acc.2.1)) ∧
      acc.1.velocity = (w.getShip t).velocity +
        (stream s0 (k + 2) * (1 / acc.2.1), stream s0 (k + 3) * (1 / acc.2.1))

/-- A radar with unit width, unit receive cross-section, transmit power `TAU`,
zero detection threshold and relative heading 0, not yet consumed. -/
noncomputable def radarA : Radar :=
  { heading := 0, width := 1, power := TAU, rx_cross_section := 1,
    min_rssi := 0, scanned := false }

/-- Team-0 ship at the origin, heading along the positive x-axis, carrying
`radarA`. -/
noncomputable def shipA : Ship :=
  { position := (0, 0), velocity := (0, 0), heading := 0,
    data := { team := 0, radar_cross_section := 1, radar := some radarA } }

/-- Team-1 ship at `(1, 0)`, heading along the negative x-axis (back towards
`shipA`), carrying `radarA`. -/
noncomputable def shipB : Ship :=
  { position := (1, 0), velocity := (0, 0), heading := Real.pi,
    data := { team := 1, radar_cross_section := 1, radar := some radarA } }

/-- A two-ship world at step 0: handle 0 is `shipA`, handle 1 is `shipB`. -/
noncomputable def W0 : World :=
  { tick := 0, ships := [0, 1],
    getShip := fun n => if n = 0 then shipA else shipB,
    debugLines := [] }

/-- `W0` with ship 0's radar already consumed this step. -/
noncomputable def W0consumed : World := setScanned W0 0

/-- A concrete draw stream: draw `i` of every seed is `i`. -/
noncomputable def exStream : Nat → Nat → ℝ := fun _ i => (i : ℝ)

/-- A draw stream that agrees with `exStream` on seed 0 and differs on every
other seed. -/
noncomputable def exStream2 : Nat → Nat → ℝ := fun s i => if s = 0 then (i : ℝ) else 7

/-- The state of `W0` after ship 0's scan: flag set and beam drawn. -/
noncomputable def W0A : World :=
  draw_beam (setScanned W0 0) { radarA with scanned := true }
    (compute_beam radarA ((0 : ℝ), (0 : ℝ)) 0)

/-- The state of `W0A` after ship 1's scan: both flags set, both beams drawn. -/
noncomputable def W0AB : World :=
  draw_beam (setScanned W0A 1) { radarA with scanned := true }
    (compute_beam radarA ((1 : ℝ), (0 : ℝ)) Real.pi)

/-! ## Theorems -/

theorem explode_collided (sim : Simulation) (h : Nat) :
    (explode sim h).collided = sim.collided := rfl

theorem processEvent_collided (sim : Simulation) (e : ContactEvent) :
    (processEvent sim e).collided = (sim.collided || isContactStart e) := by
  cases e with
  | started h1 h2 =>
    simp only [isContactStart, Bool.or_true]
    rfl
  | stopped h1 h2 => simp [processEvent, isContactStart]

theorem foldl_processEvent_collided (es : List ContactEvent) :
    ∀ sim : Simulation,
      (es.foldl processEvent sim).collided = (sim.collided || es.any isContactStart) := by
  induction es with
  | nil => intro sim; simp
  | cons e es ih =>
    intro sim
    simp only [List.foldl_cons, List.any_cons, ih, processEvent_collided, Bool.or_assoc]

theorem step_collided_eq (sim : Simulation) :
    (step sim).collided = (sim.collided || sim.contactEvents.any isContactStart) := by
  simp only [step]
  exact foldl_processEvent_collided sim.contactEvents sim

/-- Neither the ship set nor the bullet set changes. -/
def shipsAndBulletsUnchanged (sim sim' : Simulation) : Prop :=
  sim'.ships = sim.ships ∧ sim'.bullets = sim.bullets

theorem explode_ships (sim : Simulation) (h : Nat) :
    h ∉ (explode sim h).ships ∧
      (∀ s ∈ sim.ships, s ≠ h → s ∈ (explode sim h).ships) ∧
      (explode sim h).bullets = sim.bullets := by
  refine ⟨?_, ?_, rfl⟩
  · intro hmem
    simp only [explode, List.mem_filter, decide_eq_true_eq] at hmem
    exact hmem.2 rfl
  · intro s hs hne
    simp only [explode, List.mem_filter, decide_eq_true_eq]
    exact ⟨hs, hne⟩

theorem contains_eq_true_of_mem {l : List Nat} {a : Nat} (h : a ∈ l) :
    l.contains a = true :=
  List.elem_eq_true_of_mem h

theorem contains_eq_false_of_not_mem {l : List Nat} {a : Nat} (h : a ∉ l) :
    l.contains a = false := by
  by_contra hne
  exact h (List.mem_of_elem_eq_true (eq_true_of_ne_false hne))

/-- C1: for a contact-start event drained by `step` whose two colliders resolve
to body indices, if one index is in the bullet set and the other in the ship
set then that ship is destroyed (removed from the world via `explode`) and the
bullet set is untouched; if both indices are bullets, both are ships, or either
index is neither (e.g. a boundary body), no entity is destroyed by the event. -/
theorem contact_event_bullet_ship_policy (sim : Simulation) (h1 h2 idx1 idx2 : Nat)
    (g1 : get_index sim h1 = some idx1) (g2 : get_index sim h2 = some idx2) :
    (idx1 ∈ sim.bullets → idx1 ∉ sim.ships → idx2 ∈ sim.ships → idx2 ∉ sim.bullets →
      idx2 ∉ (processEvent sim (.started h1 h2)).ships ∧
      (∀ s ∈ sim.ships, s ≠ idx2 → s ∈ (processEvent sim (.started h1 h2)).ships) ∧
      (processEvent sim (.started h1 h2)).bullets = sim.bullets) ∧
    (idx2 ∈ sim.bullets → idx2 ∉ sim.ships → idx1 ∈ sim.ships → idx1 ∉ sim.bullets →
      idx1 ∉ (processEvent sim (.started h1 h2)).ships ∧
      (∀ s ∈ sim.ships, s ≠ idx1 → s ∈ (processEvent sim (.started h1 h2)).ships) ∧
      (processEvent sim (.started h1 h2)).bullets = sim.bullets) ∧
    (idx1 ∈ sim.bullets → idx2 ∈ sim.bullets → idx1 ∉ sim.ships → idx2 ∉ sim.ships →
      shipsAndBulletsUnchanged sim (processEvent sim (.started h1 h2))) ∧
    (idx1 ∈ sim.ships → idx2 ∈ sim.ships → idx1 ∉ sim.bullets → idx2 ∉ sim.bullets →
      shipsAndBulletsUnchanged sim (processEvent sim (.started h1 h2))) ∧
    ((idx1 ∉ sim.bullets ∧ idx1 ∉ sim.ships) ∨ (idx2 ∉ sim.bullets ∧ idx2 ∉ sim.ships) →
      shipsAndBulletsUnchanged sim (processEvent sim (.started h1 h2))) := by
  refine ⟨?_, ?_, ?_, ?_, ?_⟩
  · intro b1 s1 b2 s2
    have hc : processEvent sim (.started h1 h2) =
        { explode sim idx2 with collided := true } := by
      simp only [processEvent, g1, g2, contains_eq_true_of_mem b1, contains_eq_true_of_mem b2,
        Bool.true_and, if_true]
    rw [hc]
    exact explode_ships sim idx2
  · intro b1 s1 b2 s2
    have hc : processEvent sim (.started h1 h2) =
        { explode sim idx1 with collided := true } := by
      simp [processEvent, g1, g2, b1, s1, b2, s2]
    rw [hc]
    exact explode_ships sim idx1
  · intro b1 b2 s1 s2
    have hc : processEvent sim (.started h1 h2) = { sim with collided := true } := by
      simp [processEvent, g1, g2, s1, s2]
    rw [hc]
    exact ⟨rfl, rfl⟩
  · intro s1 s2 b1 b2
    have hc : processEvent sim (.started h1 h2) = { sim with collided := true } := by
      simp [processEvent, g1, g2, b1, b2]
    rw [hc]
    exact ⟨rfl, rfl⟩
  · rintro (⟨hb, hs⟩ | ⟨hb, hs⟩)
    · have hc : processEvent sim (.started h1 h2) = { sim with collided := true } := by
        simp [processEvent, g1, g2, hb, hs]
      rw [hc]
      exact ⟨rfl, rfl⟩
    · have hc : processEvent sim (.started h1 h2) = { sim with collided := true } := by
        simp [processEvent, g1, g2, hb, hs]
      rw [hc]
      exact ⟨rfl, rfl⟩

/-- A concrete simulation with one ship (body 5) and one bullet (body 7),
whose colliders 1 and 2 belong to bodies 7 and 5 respectively. -/
def simW : Simulation :=
  { ships := [5]
    bullets := [7]
    colliders := [(1, some 7), (2, some 5)]
    contactEvents := [ContactEvent.started 1 2]
    intersectionEvents := []
    collided := false }

theorem contact_event_bullet_ship_policy_witness :
    5 ∉ (processEvent simW (.started 1 2)).ships ∧
      (processEvent simW (.started 1 2)).bullets = simW.bullets :=
  have h := contact_event_bullet_ship_policy simW 1 2 7 5 (by rfl) (by rfl)
  have h1 := h.1 (by decide) (by decide) (by decide) (by decide)
  ⟨h1.1, h1.2.2⟩

/-- C9: `step` sets the `collided` flag exactly when a contact-start event is
drained (the flag is set for every contact-start event, resolvable or not),
never resets it, and once true it stays true across subsequent steps. -/
theorem step_collided_flag (sim : Simulation) :
    (step sim).collided = (sim.collided || sim.contactEvents.any isContactStart) ∧
    (∀ e ∈ sim.contactEvents, isContactStart e = true → (step sim).collided = true) ∧
    (∀ n : Nat, sim.collided = true → (step^[n] sim).collided = true) := by
  refine ⟨step_collided_eq sim, ?_, ?_⟩
  · intro e he hs
    rw [step_collided_eq]
    have : sim.contactEvents.any isContactStart = true :=
      List.any_eq_true.mpr ⟨e, he, hs⟩
    simp [this]
  · intro n
    induction n generalizing sim with
    | zero => intro h; simpa using h
    | succ n ih =>
      intro h
      rw [Function.iterate_succ_apply]
      exact ih (step sim) (by rw [step_collided_eq, h, Bool.true_or])

theorem step_collided_flag_witness :
    (step^[2] { simW with collided := true }).collided = true :=
  (step_collided_flag { simW with collided := true }).2.2 2 rfl

/-! ### Radar helper lemmas -/

theorem compute_rssi_eq (w : World) (beam : RadarBeam) (source target : Nat)
    (r : Radar) (hr : (w.getShip source).data.radar = some r) :
    compute_rssi w beam source target =
      some (rssiVal w beam target r.rx_cross_section) := by
  unfold compute_rssi rssiVal
  by_cases hang :
      vangle ((w.getShip target).position - beam.center) beam.center_vec > beam.width * 0.5
  · rw [if_pos hang, if_pos hang]
  · rw [if_neg hang, if_neg hang, hr]

theorem scanStep_eq (stream : Nat → Nat → ℝ) (w : World) (beam : RadarBeam)
    (own_team source : Nat) (min_rssi : ℝ) (r : Radar)
    (hr : (w.getShip source).data.radar = some r)
    (acc : ScanResult × ℝ × SeededRng) (other : Nat) :
    scanStep stream w beam own_team source min_rssi acc other =
      some (scanStepT stream w beam own_team r.rx_cross_section min_rssi acc other) := by
  by_cases ht : (w.getShip other).data.team = own_team
  · simp [scanStep, scanStepT, ht]
  · simp only [scanStep, scanStepT, if_neg ht,
      compute_rssi_eq w beam source other r hr]
    by_cases hc : rssiVal w beam other r.rx_cross_section > min_rssi ∧
        (acc.1.found = false ∨ rssiVal w beam other r.rx_cross_section > acc.2.1)
    · rw [if_pos hc, if_pos hc]
    · rw [if_neg hc, if_neg hc]

theorem foldlM_scanStep_eq (stream : Nat → Nat → ℝ) (w : World) (beam : RadarBeam)
    (own_team source : Nat) (min_rssi : ℝ) (r : Radar)
    (hr : (w.getShip source).data.radar = some r) (l : List Nat) :
    ∀ acc, l.foldlM (scanStep stream w beam own_team source min_rssi) acc =
      some (l.foldl (scanStepT stream w beam own_team r.rx_cross_section min_rssi) acc) := by
  induction l with
  | nil => intro acc; rfl
  | cons x xs ih =>
    intro acc
    rw [List.foldlM_cons, scanStep_eq stream w beam own_team source min_rssi r hr acc x]
    simp only [Option.bind_eq_bind, Option.some_bind, List.foldl_cons]
    exact ih _

theorem scanAux_eq (stream : Nat → Nat → ℝ) (w : World) (beam : RadarBeam)
    (own_team source : Nat) (min_rssi : ℝ) (r : Radar) (rng0 : SeededRng)
    (hr : (w.getShip source).data.radar = some r) :
    scanAux stream w beam own_team source min_rssi rng0 =
      some (w.ships.foldl (scanStepT stream w beam own_team r.rx_cross_section min_rssi)
        (scanEmptyResult, 0, rng0)) :=
  foldlM_scanStep_eq stream w beam own_team source min_rssi r hr w.ships _

theorem noise_eval (stream : Nat → Nat → ℝ) (s i : Nat) (rssi : ℝ) :
    noise stream ⟨s, i⟩ rssi =
      ((stream s i * (1 / rssi), stream s (i + 1) * (1 / rssi)), ⟨s, i + 2⟩) := rfl

theorem noise_rng (stream : Nat → Nat → ℝ) (rng : SeededRng) (rssi : ℝ) :
    (noise stream rng rssi).2 = ⟨rng.seed, rng.index + 2⟩ := rfl

theorem scanStepT_rng (stream : Nat → Nat → ℝ) (w : World) (beam : RadarBeam)
    (own_team : Nat) (rx min_rssi : ℝ) (acc : ScanResult × ℝ × SeededRng) (other : Nat) :
    (scanStepT stream w beam own_team rx min_rssi acc other).2.2 = acc.2.2 ∨
      (scanStepT stream w beam own_team rx min_rssi acc other).2.2 =
        ⟨acc.2.2.seed, acc.2.2.index + 4⟩ := by
  unfold scanStepT
  by_cases ht : (w.getShip other).data.team = own_team
  · rw [if_pos ht]; exact Or.inl rfl
  · rw [if_neg ht]
    by_cases hc : rssiVal w beam other rx > min_rssi ∧
        (acc.1.found = false ∨ rssiVal w beam other rx > acc.2.1)
    · rw [if_pos hc]; exact Or.inr rfl
    · rw [if_neg hc]; exact Or.inl rfl

theorem scanStepT_seed (stream : Nat → Nat → ℝ) (w : World) (beam : RadarBeam)
    (own_team : Nat) (rx min_rssi : ℝ) (acc : ScanResult × ℝ × SeededRng) (other : Nat) :
    (scanStepT stream w beam own_team rx min_rssi acc other).2.2.seed = acc.2.2.seed := by
  rcases scanStepT_rng stream w beam own_team rx min_rssi acc other with h | h <;> rw [h]

theorem foldl_scanStepT_seed (stream : Nat → Nat → ℝ) (w : World) (beam : RadarBeam)
    (own_team : Nat) (rx min_rssi : ℝ) (l : List Nat) :
    ∀ acc, ((l.foldl (scanStepT stream w beam own_team rx min_rssi) acc).2.2).seed =
      acc.2.2.seed := by
  induction l with
  | nil => intro acc; rfl
  | cons x xs ih =>
    intro acc
    rw [List.foldl_cons, ih, scanStepT_seed]

theorem setScanned_getShip_ne (w : World) (h u : Nat) (hne : u ≠ h) :
    (setScanned w h).getShip u = w.getShip u := by
  simp [setScanned, updateRadar, hne]

theorem setScanned_radar (w : World) (h : Nat) (r0 : Radar)
    (hr : (w.getShip h).data.radar = some r0) :
    ((setScanned w h).getShip h).data.radar = some { r0 with scanned := true } := by
  simp [setScanned, updateRadar, hr]

theorem setScanned_fields (w : World) (h : Nat) :
    ((setScanned w h).getShip h).position = (w.getShip h).position ∧
    ((setScanned w h).getShip h).velocity = (w.getShip h).velocity ∧
    ((setScanned w h).getShip h).heading = (w.getShip h).heading ∧
    ((setScanned w h).getShip h).data.team = (w.getShip h).data.team ∧
    ((setScanned w h).getShip h).data.radar_cross_section =
      (w.getShip h).data.radar_cross_section := by
  refine ⟨?_, ?_, ?_, ?_, ?_⟩ <;> simp [setScanned, updateRadar]

theorem setScanned_ships (w : World) (h : Nat) : (setScanned w h).ships = w.ships := rfl

theorem setScanned_tick (w : World) (h : Nat) : (setScanned w h).tick = w.tick := rfl

theorem draw_beam_getShip (w : World) (r : Radar) (beam : RadarBeam) :
    (draw_beam w r beam).getShip = w.getShip := rfl

theorem draw_beam_ships (w : World) (r : Radar) (beam : RadarBeam) :
    (draw_beam w r beam).ships = w.ships := rfl

theorem draw_beam_tick (w : World) (r : Radar) (beam : RadarBeam) :
    (draw_beam w r beam).tick = w.tick := rfl

theorem scanStepT_of_skip (stream : Nat → Nat → ℝ) (w : World) (beam : RadarBeam)
    (own_team : Nat) (rx min_rssi : ℝ) (acc : ScanResult × ℝ × SeededRng) (other : Nat)
    (ht : (w.getShip other).data.team = own_team) :
    scanStepT stream w beam own_team rx min_rssi acc other = acc := by
  unfold scanStepT
  rw [if_pos ht]

theorem scanStepT_of_hit (stream : Nat → Nat → ℝ) (w : World) (beam : RadarBeam)
    (own_team : Nat) (rx min_rssi : ℝ) (acc : ScanResult × ℝ × SeededRng) (other : Nat)
    (ht : (w.getShip other).data.team ≠ own_team)
    (hc : rssiVal w beam other rx > min_rssi ∧
      (acc.1.found = false ∨ rssiVal w beam other rx > acc.2.1)) :
    scanStepT stream w beam own_team rx min_rssi acc other =
      (⟨true,
        (w.getShip other).position + (noise stream acc.2.2 (rssiVal w beam other rx)).1,
        (w.getShip other).velocity +
          (noise stream (noise stream acc.2.2 (rssiVal w beam other rx)).2
            (rssiVal w beam other rx)).1⟩,
       rssiVal w beam other rx,
       (noise stream (noise stream acc.2.2 (rssiVal w beam other rx)).2
         (rssiVal w beam other rx)).2) := by
  unfold scanStepT
  rw [if_neg ht, if_pos hc]

theorem scanStepT_of_miss (stream : Nat → Nat → ℝ) (w : World) (beam : RadarBeam)
    (own_team : Nat) (rx min_rssi : ℝ) (acc : ScanResult × ℝ × SeededRng) (other : Nat)
    (ht : (w.getShip other).data.team ≠ own_team)
    (hc : ¬(rssiVal w beam other rx > min_rssi ∧
      (acc.1.found = false ∨ rssiVal w beam other rx > acc.2.1))) :
    scanStepT stream w beam own_team rx min_rssi acc other = acc := by
  unfold scanStepT
  rw [if_neg ht, if_neg hc]

theorem scanStepT_found_best (stream : Nat → Nat → ℝ) (w : World) (beam : RadarBeam)
    (own_team : Nat) (rx min_rssi : ℝ) (acc : ScanResult × ℝ × SeededRng) (other : Nat)
    (h : acc.1.found = true) :
    (scanStepT stream w beam own_team rx min_rssi acc other).1.found = true ∧
      acc.2.1 ≤ (scanStepT stream w beam own_team rx min_rssi acc other).2.1 := by
  by_cases ht : (w.getShip other).data.team = own_team
  · rw [scanStepT_of_skip stream w beam own_team rx min_rssi acc other ht]
    exact ⟨h, le_rfl⟩
  · by_cases hc : rssiVal w beam other rx > min_rssi ∧
        (acc.1.found = false ∨ rssiVal w beam other rx > acc.2.1)
    · rw [scanStepT_of_hit stream w beam own_team rx min_rssi acc other ht hc]
      refine ⟨rfl, ?_⟩
      rcases hc.2 with hf | hlt
      · simp [h] at hf
      · exact le_of_lt hlt
    · rw [scanStepT_of_miss stream w beam own_team rx min_rssi acc other ht hc]
      exact ⟨h, le_rfl⟩

theorem foldl_found_best (stream : Nat → Nat → ℝ) (w : World) (beam : RadarBeam)
    (own_team : Nat) (rx min_rssi : ℝ) (l : List Nat) :
    ∀ acc, acc.1.found = true →
      ((l.foldl (scanStepT stream w beam own_team rx min_rssi) acc).1.found = true ∧
        acc.2.1 ≤ (l.foldl (scanStepT stream w beam own_team rx min_rssi) acc).2.1) := by
  induction l with
  | nil => intro acc h; exact ⟨h, le_rfl⟩
  | cons x xs ih =>
    intro acc h
    rw [List.foldl_cons]
    obtain ⟨h1, h2⟩ := scanStepT_found_best stream w beam own_team rx min_rssi acc x h
    obtain ⟨h3, h4⟩ := ih _ h1
    exact ⟨h3, le_trans h2 h4⟩

theorem foldl_qualifying (stream : Nat → Nat → ℝ) (w : World) (beam : RadarBeam)
    (own_team : Nat) (rx min_rssi : ℝ) (l : List Nat) :
    ∀ acc u, u ∈ l → (w.getShip u).data.team ≠ own_team →
      rssiVal w beam u rx > min_rssi →
      ((l.foldl (scanStepT stream w beam own_team rx min_rssi) acc).1.found = true ∧
        rssiVal w beam u rx ≤
          (l.foldl (scanStepT stream w beam own_team rx min_rssi) acc).2.1) := by
  induction l with
  | nil => intro acc u hu; cases hu
  | cons x xs ih =>
    intro acc u hu hteam hq
    rw [List.foldl_cons]
    rcases List.mem_cons.mp hu with rfl | hu'
    · by_cases hc : rssiVal w beam u rx > min_rssi ∧
          (acc.1.found = false ∨ rssiVal w beam u rx > acc.2.1)
      · have hstep := scanStepT_of_hit stream w beam own_team rx min_rssi acc u hteam hc
        have hfound : (scanStepT stream w beam own_team rx min_rssi acc u).1.found = true := by
          rw [hstep]
        have hbest : (scanStepT stream w beam own_team rx min_rssi acc u).2.1 =
            rssiVal w beam u rx := by
          rw [hstep]
        obtain ⟨h1, h2⟩ := foldl_found_best stream w beam own_team rx min_rssi xs _ hfound
        rw [hbest] at h2
        exact ⟨h1, h2⟩
      · rcases not_and_or.mp hc with h | h
        · exact absurd hq h
        · have hfd : acc.1.found = true := by
            rcases Bool.eq_false_or_eq_true acc.1.found with hf | hf
            · exact hf
            · exact absurd (Or.inl hf) h
          have hle : rssiVal w beam u rx ≤ acc.2.1 :=
            not_lt.mp (fun hlt => h (Or.inr hlt))
          rw [scanStepT_of_miss stream w beam own_team rx min_rssi acc u hteam hc]
          obtain ⟨h1, h2⟩ := foldl_found_best stream w beam own_team rx min_rssi xs acc hfd
          exact ⟨h1, le_trans hle h2⟩
    · exact ih _ u hu' hteam hq

theorem scanStepT_threshold (stream : Nat → Nat → ℝ) (w : World) (beam : RadarBeam)
    (own_team : Nat) (rx min_rssi : ℝ) (acc : ScanResult × ℝ × SeededRng) (other : Nat)
    (h : acc.1.found = true → acc.2.1 > min_rssi) :
    (scanStepT stream w beam own_team rx min_rssi acc other).1.found = true →
      (scanStepT stream w beam own_team rx min_rssi acc other).2.1 > min_rssi := by
  by_cases ht : (w.getShip other).data.team = own_team
  · rw [scanStepT_of_skip stream w beam own_team rx min_rssi acc other ht]; exact h
  · by_cases hc : rssiVal w beam other rx > min_rssi ∧
        (acc.1.found = false ∨ rssiVal w beam other rx > acc.2.1)
    · rw [scanStepT_of_hit stream w beam own_team rx min_rssi acc other ht hc]
      intro _
      exact hc.1
    · rw [scanStepT_of_miss stream w beam own_team rx min_rssi acc other ht hc]; exact h

theorem foldl_threshold (stream : Nat → Nat → ℝ) (w : World) (beam : RadarBeam)
    (own_team : Nat) (rx min_rssi : ℝ) (l : List Nat) :
    ∀ acc, (acc.1.found = true → acc.2.1 > min_rssi) →
      ((l.foldl (scanStepT stream w beam own_team rx min_rssi) acc).1.found = true →
        (l.foldl (scanStepT stream w beam own_team rx min_rssi) acc).2.1 > min_rssi) := by
  induction l with
  | nil => intro acc h; exact h
  | cons x xs ih =>
    intro acc h
    rw [List.foldl_cons]
    exact ih _ (scanStepT_threshold stream w beam own_team rx min_rssi acc x h)

theorem scanStepT_shape (stream : Nat → Nat → ℝ) (w : World) (beam : RadarBeam)
    (own_team : Nat) (rx min_rssi : ℝ) (s0 : Nat) (acc : ScanResult × ℝ × SeededRng)
    (other : Nat) (hseed : acc.2.2.seed = s0) (hmem : other ∈ w.ships)
    (hsh : acc.1.found = true → detShape stream w beam own_team rx s0 acc) :
    (scanStepT stream w beam own_team rx min_rssi acc other).1.found = true →
      detShape stream w beam own_team rx s0
        (scanStepT stream w beam own_team rx min_rssi acc other) := by
  by_cases ht : (w.getShip other).data.team = own_team
  · rw [scanStepT_of_skip stream w beam own_team rx min_rssi acc other ht]; exact hsh
  · by_cases hc : rssiVal w beam other rx > min_rssi ∧
        (acc.1.found = false ∨ rssiVal w beam other rx > acc.2.1)
    · rw [scanStepT_of_hit stream w beam own_team rx min_rssi acc other ht hc]
      intro _
      refine ⟨other, hmem, ht, rfl, acc.2.2.index, ?_, ?_⟩
      · rw [← hseed]
        rfl
      · rw [← hseed]
        have e1 : acc.2.2.index + 2 = acc.2.2.index + 1 + 1 := by omega
        have e2 : acc.2.2.index + 3 = acc.2.2.index + 1 + 1 + 1 := by omega
        rw [e1, e2]
        rfl
    · rw [scanStepT_of_miss stream w beam own_team rx min_rssi acc other ht hc]; exact hsh

theorem foldl_shape (stream : Nat → Nat → ℝ) (w : World) (beam : RadarBeam)
    (own_team : Nat) (rx min_rssi : ℝ) (s0 : Nat) (l : List Nat) :
    ∀ acc, (∀ x ∈ l, x ∈ w.ships) → acc.2.2.seed = s0 →
      (acc.1.found = true → detShape stream w beam own_team rx s0 acc) →
      ((l.foldl (scanStepT stream w beam own_team rx min_rssi) acc).1.found = true →
        detShape stream w beam own_team rx s0
          (l.foldl (scanStepT stream w beam own_team rx min_rssi) acc)) := by
  induction l with
  | nil => intro acc _ _ h; exact h
  | cons x xs ih =>
    intro acc hl hseed hsh
    rw [List.foldl_cons]
    refine ih _ (fun y hy => hl y (List.mem_cons_of_mem x hy)) ?_ ?_
    · rw [scanStepT_seed]; exact hseed
    · exact scanStepT_shape stream w beam own_team rx min_rssi s0 acc x hseed
        (hl x (List.mem_cons_self x xs)) hsh

theorem compute_beam_scanned (r0 : Radar) (p : ℝ × ℝ) (h : ℝ) :
    compute_beam { r0 with scanned := true } p h = compute_beam r0 p h := rfl

theorem scanO_eq (stream : Nat → Nat → ℝ) (w : World) (handle : Nat) (r0 : Radar)
    (hr : (w.getShip handle).data.radar = some r0) (hsc : r0.scanned = false) :
    scanO stream w handle =
      some ((w.ships.foldl
          (scanStepT stream (setScanned w handle)
            (compute_beam r0 ((w.getShip handle).position) ((w.getShip handle).heading))
            ((w.getShip handle).data.team) r0.rx_cross_section r0.min_rssi)
          (scanEmptyResult, 0, new_rng w.tick)).1,
        draw_beam (setScanned w handle) { r0 with scanned := true }
          (compute_beam r0 ((w.getShip handle).position) ((w.getShip handle).heading))) := by
  have hr1 : ((setScanned w handle).getShip handle).data.radar =
      some { r0 with scanned := true } := setScanned_radar w handle r0 hr
  obtain ⟨hp, hv, hh, htm, hcs⟩ := setScanned_fields w handle
  simp only [scanO, hr, hsc, Bool.false_eq_true, if_false, hr1,
    hp, hh, htm, setScanned_ships, setScanned_tick, compute_beam_scanned]
  rw [scanAux_eq stream (setScanned w handle)
    (compute_beam r0 ((w.getShip handle).position) ((w.getShip handle).heading))
    ((w.getShip handle).data.team) handle r0.min_rssi { r0 with scanned := true }
    (new_rng w.tick) hr1]
  rfl

theorem scanSpecRng_eq (stream : Nat → Nat → ℝ) (rng0 : SeededRng) (w : World)
    (handle : Nat) (r0 : Radar)
    (hr : (w.getShip handle).data.radar = some r0) (hsc : r0.scanned = false) :
    scanSpecRng stream rng0 w handle =
      some ((w.ships.foldl
          (scanStepT stream (setScanned w handle)
            (compute_beam r0 ((w.getShip handle).position) ((w.getShip handle).heading))
            ((w.getShip handle).data.team) r0.rx_cross_section r0.min_rssi)
          (scanEmptyResult, 0, rng0)).1,
        draw_beam (setScanned w handle) { r0 with scanned := true }
          (compute_beam r0 ((w.getShip handle).position) ((w.getShip handle).heading)),
        (w.ships.foldl
          (scanStepT stream (setScanned w handle)
            (compute_beam r0 ((w.getShip handle).position) ((w.getShip handle).heading))
            ((w.getShip handle).data.team) r0.rx_cross_section r0.min_rssi)
          (scanEmptyResult, 0, rng0)).2.2) := by
  have hr1 : ((setScanned w handle).getShip handle).data.radar =
      some { r0 with scanned := true } := setScanned_radar w handle r0 hr
  obtain ⟨hp, hv, hh, htm, hcs⟩ := setScanned_fields w handle
  simp only [scanSpecRng, hr, hsc, Bool.false_eq_true, if_false, hr1,
    hp, hh, htm, setScanned_ships, setScanned_tick, compute_beam_scanned]
  rw [scanAux_eq stream (setScanned w handle)
    (compute_beam r0 ((w.getShip handle).position) ((w.getShip handle).heading))
    ((w.getShip handle).data.team) handle r0.min_rssi { r0 with scanned := true }
    rng0 hr1]
  rfl

/-! ### Claims about the radar -/

/-- C10: `scan` never panics on the radar unwrap inside `compute_rssi`: every
invocation returns a result (the `none`/panic case of the embedding is
unreachable), because the target loop only runs when the scanning ship's radar
capability is present, and a scan without a radar takes the empty-result
path. -/
theorem scan_never_panics (stream : Nat → Nat → ℝ) (w : World) (h : Nat) :
    (scanO stream w h).isSome = true := by
  cases hr : (w.getShip h).data.radar with
  | none => simp [scanO, hr]
  | some r0 =>
    cases hsc : r0.scanned with
    | true => simp [scanO, hr, hsc]
    | false => rw [scanO_eq stream w h r0 hr hsc]; rfl

/-- C3: a `scan` on a ship whose radar's consumed flag is already set returns
the empty result immediately and leaves the whole state unchanged, and after
any `scan` a further `scan` in the same step returns the empty result and
changes nothing — a sensor yields at most one detection per step. -/
theorem scan_consumed_idempotent (stream : Nat → Nat → ℝ) (w : World) (h : Nat)
    (r0 : Radar) (hr : (w.getShip h).data.radar = some r0) :
    (r0.scanned = true → scanO stream w h = some (scanEmptyResult, w)) ∧
    (∀ res w' stream2, scanO stream w h = some (res, w') →
      scanO stream2 w' h = some (scanEmptyResult, w')) := by
  constructor
  · intro hsc
    simp [scanO, hr, hsc]
  · intro res w' stream2 hscan
    cases hsc : r0.scanned with
    | true =>
      have h1 : scanO stream w h = some (scanEmptyResult, w) := by simp [scanO, hr, hsc]
      rw [h1] at hscan
      have h2 : w = w' := congrArg (fun p => (Option.getD p (scanEmptyResult, w)).2) hscan
      rw [← h2]
      simp [scanO, hr, hsc]
    | false =>
      rw [scanO_eq stream w h r0 hr hsc] at hscan
      have hw' : w' = draw_beam (setScanned w h) { r0 with scanned := true }
          (compute_beam r0 ((w.getShip h).position) ((w.getShip h).heading)) := by
        have := congrArg (fun p => (Option.getD p (scanEmptyResult, w)).2) hscan
        exact this.symm
      have hr' : (w'.getShip h).data.radar = some { r0 with scanned := true } := by
        rw [hw', draw_beam_getShip]
        exact setScanned_radar w h r0 hr
      simp [scanO, hr']

/-- C4: `compute_rssi` yields zero signal strength when the angle between the
line of sight (target position minus beam center) and the beam's central
direction exceeds half the aperture, and otherwise yields
`power * target_cross_section * rx_cross_section / (2π * width * squared_range)`
with `squared_range` the Euclidean squared distance from beam center to the
target. -/
theorem compute_rssi_formula (w : World) (beam : RadarBeam) (source target : Nat)
    (r : Radar) (hr : (w.getShip source).data.radar = some r) :
    (vangle ((w.getShip target).position - beam.center) beam.center_vec >
        beam.width * 0.5 →
      compute_rssi w beam source target = some 0) ∧
    (¬(vangle ((w.getShip target).position - beam.center) beam.center_vec >
        beam.width * 0.5) →
      compute_rssi w beam source target =
        some (beam.power * (w.getShip target).data.radar_cross_section *
          r.rx_cross_section /
          (2 * Real.pi * beam.width *
            ((((w.getShip target).position).1 - beam.center.1) ^ 2 +
              (((w.getShip target).position).2 - beam.center.2) ^ 2)))) := by
  constructor
  · intro hang
    simp [compute_rssi, hang]
  · intro hang
    simp only [compute_rssi, if_neg hang, hr]
    rw [TAU, dist_sq]

/-- C6: `set_width` on a ship with a radar capability stores the requested
aperture clamped to `[2π/360, 2π]`: inputs below `2π/360` store `2π/360`,
inputs above `2π` store `2π`, and inputs in between are stored unchanged; all
other radar fields are untouched. -/
theorem set_width_clamps (w : World) (h : Nat) (width : ℝ) (r0 : Radar)
    (hr : (w.getShip h).data.radar = some r0) :
    ∃ r1 : Radar, ((set_width w h width).getShip h).data.radar = some r1 ∧
      r1.heading = r0.heading ∧ r1.power = r0.power ∧
      r1.rx_cross_section = r0.rx_cross_section ∧ r1.min_rssi = r0.min_rssi ∧
      r1.scanned = r0.scanned ∧
      (width < 2 * Real.pi / 360 → r1.width = 2 * Real.pi / 360) ∧
      (width > 2 * Real.pi → r1.width = 2 * Real.pi) ∧
      (¬(width < 2 * Real.pi / 360) → ¬(width > 2 * Real.pi) → r1.width = width) := by
  refine ⟨{ r0 with width := fclamp width (TAU / 360) TAU }, ?_, rfl, rfl, rfl, rfl, rfl,
    ?_, ?_, ?_⟩
  · simp [set_width, updateRadar, hr]
  · intro hlt
    show fclamp width (TAU / 360) TAU = 2 * Real.pi / 360
    unfold fclamp TAU
    exact if_pos hlt
  · intro hgt
    show fclamp width (TAU / 360) TAU = 2 * Real.pi
    have h2 : 2 * Real.pi / 360 ≤ 2 * Real.pi := by nlinarith [Real.pi_pos]
    have hnlt : ¬(width < 2 * Real.pi / 360) := not_lt.mpr (le_of_lt (lt_of_le_of_lt h2 hgt))
    unfold fclamp TAU
    rw [if_neg hnlt, if_pos hgt]
  · intro hnlt hngt
    show fclamp width (TAU / 360) TAU = width
    unfold fclamp TAU
    rw [if_neg hnlt, if_neg hngt]

/-! ### Concrete evaluations on the two-ship world -/

theorem W0_radar_zero : (W0.getShip 0).data.radar = some radarA := rfl

theorem radarA_scanned : radarA.scanned = false := rfl

theorem noise_eval2 (stream : Nat → Nat → ℝ) (rng : SeededRng) (rssi : ℝ) :
    noise stream rng rssi =
      ((stream rng.seed rng.index * (1 / rssi),
        stream rng.seed (rng.index + 1) * (1 / rssi)),
       ⟨rng.seed, rng.index + 1 + 1⟩) := rfl

theorem sSW0_ship1 : (setScanned W0 0).getShip 1 = shipB := by
  rw [setScanned_getShip_ne W0 0 1 one_ne_zero]
  rfl

theorem vnorm_one_zero : vnorm (1, 0) = 1 := by
  show Real.sqrt ((1 : ℝ) ^ 2 + (0 : ℝ) ^ 2) = 1
  norm_num

theorem vnorm_negone_zero : vnorm (-1, 0) = 1 := by
  show Real.sqrt ((-1 : ℝ) ^ 2 + (0 : ℝ) ^ 2) = 1
  norm_num

theorem vangle_one_zero : vangle (1, 0) (1, 0) = 0 := by
  unfold vangle
  rw [vnorm_one_zero]
  rw [if_neg (by norm_num)]
  have hd : vdot (1, 0) (1, 0) = 1 := by norm_num [vdot]
  rw [hd]
  norm_num [Real.arccos_one]

theorem vangle_negone_zero : vangle (-1, 0) (-1, 0) = 0 := by
  unfold vangle
  rw [vnorm_negone_zero]
  rw [if_neg (by norm_num)]
  have hd : vdot (-1, 0) (-1, 0) = 1 := by norm_num [vdot]
  rw [hd]
  norm_num [Real.arccos_one]

theorem beamA_center_vec :
    (compute_beam radarA ((0 : ℝ), (0 : ℝ)) 0).center_vec = (1, 0) := by
  show (Real.cos (radarA.heading + 0), Real.sin (radarA.heading + 0)) = ((1 : ℝ), (0 : ℝ))
  have h : radarA.heading + 0 = 0 := by
    show (0 : ℝ) + 0 = 0
    norm_num
  rw [h, Real.cos_zero, Real.sin_zero]

theorem beamB_center_vec :
    (compute_beam radarA ((1 : ℝ), (0 : ℝ)) Real.pi).center_vec = (-1, 0) := by
  show (Real.cos (radarA.heading + Real.pi), Real.sin (radarA.heading + Real.pi)) =
    ((-1 : ℝ), (0 : ℝ))
  have h : radarA.heading + Real.pi = Real.pi := by
    show (0 : ℝ) + Real.pi = Real.pi
    norm_num
  rw [h, Real.cos_pi, Real.sin_pi]

theorem TAU_ne_zero : TAU ≠ 0 := by
  unfold TAU
  positivity

theorem rssiA_eval :
    rssiVal (setScanned W0 0) (compute_beam radarA ((0 : ℝ), (0 : ℝ)) 0) 1
      radarA.rx_cross_section = 1 := by
  unfold rssiVal
  rw [sSW0_ship1]
  have hpos : shipB.position = ((1 : ℝ), (0 : ℝ)) := rfl
  have hsub : shipB.position - (compute_beam radarA ((0 : ℝ), (0 : ℝ)) 0).center =
      ((1 : ℝ), (0 : ℝ)) := by
    rw [hpos]
    show ((1 : ℝ) - 0, (0 : ℝ) - 0) = ((1 : ℝ), (0 : ℝ))
    norm_num
  rw [hsub, beamA_center_vec, vangle_one_zero]
  rw [if_neg (by show ¬((0 : ℝ) > 1 * 0.5); norm_num)]
  show TAU * shipB.data.radar_cross_section * radarA.rx_cross_section /
    (TAU * 1 * dist_sq ((0 : ℝ), (0 : ℝ)) shipB.position) = 1
  rw [hpos]
  have hd : dist_sq ((0 : ℝ), (0 : ℝ)) ((1 : ℝ), (0 : ℝ)) = 1 := by
    norm_num [dist_sq]
  rw [hd]
  show TAU * 1 * 1 / (TAU * 1 * 1) = 1
  simp [div_self TAU_ne_zero]

theorem W0A_getShip : W0A.getShip = (setScanned W0 0).getShip := rfl

theorem sSW0A_ship0 :
    (setScanned W0A 1).getShip 0 = (setScanned W0 0).getShip 0 := by
  rw [setScanned_getShip_ne W0A 1 0 zero_ne_one]
  rfl

theorem sSW0_ship0_pos : ((setScanned W0 0).getShip 0).position = ((0 : ℝ), (0 : ℝ)) :=
  (setScanned_fields W0 0).1

theorem sSW0_ship0_team : ((setScanned W0 0).getShip 0).data.team = 0 :=
  (setScanned_fields W0 0).2.2.2.1

theorem sSW0_ship0_rcs :
    ((setScanned W0 0).getShip 0).data.radar_cross_section = 1 :=
  (setScanned_fields W0 0).2.2.2.2

theorem rssiB_eval :
    rssiVal (setScanned W0A 1) (compute_beam radarA ((1 : ℝ), (0 : ℝ)) Real.pi) 0
      radarA.rx_cross_section = 1 := by
  unfold rssiVal
  rw [sSW0A_ship0]
  have hsub : ((setScanned W0 0).getShip 0).position -
      (compute_beam radarA ((1 : ℝ), (0 : ℝ)) Real.pi).center = ((-1 : ℝ), (0 : ℝ)) := by
    rw [sSW0_ship0_pos]
    show ((0 : ℝ) - 1, (0 : ℝ) - 0) = ((-1 : ℝ), (0 : ℝ))
    norm_num
  rw [hsub, beamB_center_vec, vangle_negone_zero]
  rw [if_neg (by show ¬((0 : ℝ) > 1 * 0.5); norm_num)]
  rw [sSW0_ship0_rcs, sSW0_ship0_pos]
  have hd : dist_sq ((1 : ℝ), (0 : ℝ)) ((0 : ℝ), (0 : ℝ)) = 1 := by
    norm_num [dist_sq]
  show TAU * 1 * radarA.rx_cross_section / (TAU * 1 *
    dist_sq ((1 : ℝ), (0 : ℝ)) ((0 : ℝ), (0 : ℝ))) = 1
  rw [hd]
  show TAU * 1 * 1 / (TAU * 1 * 1) = 1
  simp [div_self TAU_ne_zero]

theorem sSW0_ship0_vel : ((setScanned W0 0).getShip 0).velocity = ((0 : ℝ), (0 : ℝ)) :=
  (setScanned_fields W0 0).2.1

theorem foldW0A (stream : Nat → Nat → ℝ) (rng0 : SeededRng) :
    List.foldl (scanStepT stream (setScanned W0 0)
        (compute_beam radarA ((0 : ℝ), (0 : ℝ)) 0) 0 radarA.rx_cross_section
        radarA.min_rssi)
      (scanEmptyResult, 0, rng0) [0, 1] =
      (⟨true,
        ((1 : ℝ) + stream rng0.seed rng0.index * (1 / 1),
         (0 : ℝ) + stream rng0.seed (rng0.index + 1) * (1 / 1)),
        ((0 : ℝ) + stream rng0.seed (rng0.index + 1 + 1) * (1 / 1),
         (0 : ℝ) + stream rng0.seed (rng0.index + 1 + 1 + 1) * (1 / 1))⟩,
       1, ⟨rng0.seed, rng0.index + 1 + 1 + 1 + 1⟩) := by
  have hteamB : ((setScanned W0 0).getShip 1).data.team ≠ 0 := by
    rw [sSW0_ship1]
    exact one_ne_zero
  have hcB : rssiVal (setScanned W0 0) (compute_beam radarA ((0 : ℝ), (0 : ℝ)) 0) 1
      radarA.rx_cross_section > radarA.min_rssi ∧
      (((scanEmptyResult, (0 : ℝ), rng0) :
          ScanResult × ℝ × SeededRng).1.found = false ∨
        rssiVal (setScanned W0 0) (compute_beam radarA ((0 : ℝ), (0 : ℝ)) 0) 1
          radarA.rx_cross_section >
          ((scanEmptyResult, (0 : ℝ), rng0) : ScanResult × ℝ × SeededRng).2.1) := by
    constructor
    · rw [rssiA_eval]
      show (1 : ℝ) > radarA.min_rssi
      norm_num [radarA]
    · exact Or.inl rfl
  rw [List.foldl_cons, List.foldl_cons, List.foldl_nil]
  rw [scanStepT_of_skip stream (setScanned W0 0) (compute_beam radarA ((0 : ℝ), (0 : ℝ)) 0)
    0 radarA.rx_cross_section radarA.min_rssi (scanEmptyResult, 0, rng0) 0 sSW0_ship0_team]
  rw [scanStepT_of_hit stream (setScanned W0 0) (compute_beam radarA ((0 : ℝ), (0 : ℝ)) 0)
    0 radarA.rx_cross_section radarA.min_rssi (scanEmptyResult, 0, rng0) 1 hteamB hcB]
  rw [rssiA_eval, sSW0_ship1]
  simp only [noise_eval2]
  simp [shipB, Prod.mk_add_mk]

theorem scanW0A (stream : Nat → Nat → ℝ) :
    scanO stream W0 0 =
      some (⟨true,
        ((1 : ℝ) + stream 0 0 * (1 / 1), (0 : ℝ) + stream 0 1 * (1 / 1)),
        ((0 : ℝ) + stream 0 2 * (1 / 1), (0 : ℝ) + stream 0 3 * (1 / 1))⟩, W0A) := by
  rw [scanO_eq stream W0 0 radarA W0_radar_zero radarA_scanned]
  rw [show (W0.getShip 0).position = ((0 : ℝ), (0 : ℝ)) from rfl,
    show (W0.getShip 0).heading = (0 : ℝ) from rfl,
    show (W0.getShip 0).data.team = 0 from rfl,
    show W0.ships = [0, 1] from rfl,
    show new_rng W0.tick = (⟨0, 0⟩ : SeededRng) from rfl,
    foldW0A stream ⟨0, 0⟩]
  rfl

theorem scanSpecW0A (stream : Nat → Nat → ℝ) :
    scanSpecRng stream ⟨0, 0⟩ W0 0 =
      some (⟨true,
        ((1 : ℝ) + stream 0 0 * (1 / 1), (0 : ℝ) + stream 0 1 * (1 / 1)),
        ((0 : ℝ) + stream 0 2 * (1 / 1), (0 : ℝ) + stream 0 3 * (1 / 1))⟩, W0A,
        (⟨0, 4⟩ : SeededRng)) := by
  rw [scanSpecRng_eq stream ⟨0, 0⟩ W0 0 radarA W0_radar_zero radarA_scanned]
  rw [show (W0.getShip 0).position = ((0 : ℝ), (0 : ℝ)) from rfl,
    show (W0.getShip 0).heading = (0 : ℝ) from rfl,
    show (W0.getShip 0).data.team = 0 from rfl,
    show W0.ships = [0, 1] from rfl,
    foldW0A stream ⟨0, 0⟩]
  rfl

theorem W0A_radar_one : (W0A.getShip 1).data.radar = some radarA := by
  rw [W0A_getShip, sSW0_ship1]
  rfl

theorem W0A_pos_one : (W0A.getShip 1).position = ((1 : ℝ), (0 : ℝ)) := by
  rw [W0A_getShip, sSW0_ship1]
  rfl

theorem W0A_heading_one : (W0A.getShip 1).heading = Real.pi := by
  rw [W0A_getShip, sSW0_ship1]
  rfl

theorem W0A_team_one : (W0A.getShip 1).data.team = 1 := by
  rw [W0A_getShip, sSW0_ship1]
  rfl

theorem foldW0B (stream : Nat → Nat → ℝ) (rng0 : SeededRng) :
    List.foldl (scanStepT stream (setScanned W0A 1)
        (compute_beam radarA ((1 : ℝ), (0 : ℝ)) Real.pi) 1 radarA.rx_cross_section
        radarA.min_rssi)
      (scanEmptyResult, 0, rng0) [0, 1] =
      (⟨true,
        ((0 : ℝ) + stream rng0.seed rng0.index * (1 / 1),
         (0 : ℝ) + stream rng0.seed (rng0.index + 1) * (1 / 1)),
        ((0 : ℝ) + stream rng0.seed (rng0.index + 1 + 1) * (1 / 1),
         (0 : ℝ) + stream rng0.seed (rng0.index + 1 + 1 + 1) * (1 / 1))⟩,
       1, ⟨rng0.seed, rng0.index + 1 + 1 + 1 + 1⟩) := by
  have hteam0 : ((setScanned W0A 1).getShip 0).data.team ≠ 1 := by
    rw [sSW0A_ship0, sSW0_ship0_team]
    exact zero_ne_one
  have hskip1 : ((setScanned W0A 1).getShip 1).data.team = 1 := by
    rw [(setScanned_fields W0A 1).2.2.2.1, W0A_team_one]
  have hc0 : rssiVal (setScanned W0A 1) (compute_beam radarA ((1 : ℝ), (0 : ℝ)) Real.pi) 0
      radarA.rx_cross_section > radarA.min_rssi ∧
      (((scanEmptyResult, (0 : ℝ), rng0) :
          ScanResult × ℝ × SeededRng).1.found = false ∨
        rssiVal (setScanned W0A 1) (compute_beam radarA ((1 : ℝ), (0 : ℝ)) Real.pi) 0
          radarA.rx_cross_section >
          ((scanEmptyResult, (0 : ℝ), rng0) : ScanResult × ℝ × SeededRng).2.1) := by
    constructor
    · rw [rssiB_eval]
      show (1 : ℝ) > radarA.min_rssi
      norm_num [radarA]
    · exact Or.inl rfl
  rw [List.foldl_cons, List.foldl_cons, List.foldl_nil]
  rw [scanStepT_of_hit stream (setScanned W0A 1)
    (compute_beam radarA ((1 : ℝ), (0 : ℝ)) Real.pi) 1 radarA.rx_cross_section
    radarA.min_rssi (scanEmptyResult, 0, rng0) 0 hteam0 hc0]
  rw [rssiB_eval, sSW0A_ship0]
  have hstep1 : ∀ acc : ScanResult × ℝ × SeededRng,
      scanStepT stream (setScanned W0A 1)
        (compute_beam radarA ((1 : ℝ), (0 : ℝ)) Real.pi) 1 radarA.rx_cross_section
        radarA.min_rssi acc 1 = acc := fun acc =>
    scanStepT_of_skip stream (setScanned W0A 1)
      (compute_beam radarA ((1 : ℝ), (0 : ℝ)) Real.pi) 1 radarA.rx_cross_section
      radarA.min_rssi acc 1 hskip1
  rw [hstep1]
  rw [sSW0_ship0_pos, sSW0_ship0_vel]
  simp only [noise_eval2]
  simp [Prod.mk_add_mk]

theorem scanW0B (stream : Nat → Nat → ℝ) :
    scanO stream W0A 1 =
      some (⟨true,
        ((0 : ℝ) + stream 0 0 * (1 / 1), (0 : ℝ) + stream 0 1 * (1 / 1)),
        ((0 : ℝ) + stream 0 2 * (1 / 1), (0 : ℝ) + stream 0 3 * (1 / 1))⟩, W0AB) := by
  rw [scanO_eq stream W0A 1 radarA W0A_radar_one radarA_scanned]
  rw [W0A_pos_one, W0A_heading_one, W0A_team_one,
    show W0A.ships = [0, 1] from rfl,
    show new_rng W0A.tick = (⟨0, 0⟩ : SeededRng) from rfl,
    foldW0B stream ⟨0, 0⟩]
  rfl

theorem scanSpecW0B (stream : Nat → Nat → ℝ) :
    scanSpecRng stream ⟨0, 4⟩ W0A 1 =
      some (⟨true,
        ((0 : ℝ) + stream 0 4 * (1 / 1), (0 : ℝ) + stream 0 5 * (1 / 1)),
        ((0 : ℝ) + stream 0 6 * (1 / 1), (0 : ℝ) + stream 0 7 * (1 / 1))⟩, W0AB,
        (⟨0, 8⟩ : SeededRng)) := by
  rw [scanSpecRng_eq stream ⟨0, 4⟩ W0A 1 radarA W0A_radar_one radarA_scanned]
  rw [W0A_pos_one, W0A_heading_one, W0A_team_one,
    show W0A.ships = [0, 1] from rfl,
    foldW0B stream ⟨0, 4⟩]
  rfl

theorem scanPairCode_eval :
    scanPairCode exStream W0 0 1 =
      some (⟨true, ((1 : ℝ), (1 : ℝ)), ((2 : ℝ), (3 : ℝ))⟩,
            ⟨true, ((0 : ℝ), (1 : ℝ)), ((2 : ℝ), (3 : ℝ))⟩) := by
  unfold scanPairCode
  simp only [scanW0A exStream, scanW0B exStream]
  norm_num [exStream]

theorem scanPairSpec_eval :
    scanPairSpec exStream W0 0 1 =
      some (⟨true, ((1 : ℝ), (1 : ℝ)), ((2 : ℝ), (3 : ℝ))⟩,
            ⟨true, ((4 : ℝ), (5 : ℝ)), ((6 : ℝ), (7 : ℝ))⟩) := by
  unfold scanPairSpec
  rw [show new_rng W0.tick = (⟨0, 0⟩ : SeededRng) from rfl]
  simp only [scanSpecW0A exStream, scanSpecW0B exStream]
  norm_num [exStream]

/-- C5: detection uses strict greater-than semantics: the scan's result is a
detection only when some opposing ship's signal strength strictly exceeds
`min_rssi` (if every opposing ship's signal strength is at most `min_rssi`,
including exact equality, nothing is found), and when a detection is returned
the recorded best signal strength exceeds the threshold and dominates the
signal strength of every opposing ship considered during the scan. -/
theorem scan_strict_threshold_best (stream : Nat → Nat → ℝ) (w : World) (h : Nat)
    (r0 : Radar) (hr : (w.getShip h).data.radar = some r0) (hsc : r0.scanned = false) :
    ∃ result world' best rng',
      scanO stream w h = some (result, world') ∧
      w.ships.foldl (scanStepT stream (setScanned w h)
          (compute_beam r0 ((w.getShip h).position) ((w.getShip h).heading))
          ((w.getShip h).data.team) r0.rx_cross_section r0.min_rssi)
        (scanEmptyResult, 0, new_rng w.tick) = (result, best, rng') ∧
      (result.found = true → best > r0.min_rssi ∧
        ∀ u ∈ w.ships, (w.getShip u).data.team ≠ (w.getShip h).data.team →
          rssiVal (setScanned w h)
            (compute_beam r0 ((w.getShip h).position) ((w.getShip h).heading)) u
            r0.rx_cross_section ≤ best) ∧
      ((∀ u ∈ w.ships, (w.getShip u).data.team ≠ (w.getShip h).data.team →
          rssiVal (setScanned w h)
            (compute_beam r0 ((w.getShip h).position) ((w.getShip h).heading)) u
            r0.rx_cross_section ≤ r0.min_rssi) →
        result.found = false) := by
  set w1 := setScanned w h with hw1
  set beam := compute_beam r0 ((w.getShip h).position) ((w.getShip h).heading) with hbeam
  set own := (w.getShip h).data.team with hown
  set F := w.ships.foldl (scanStepT stream w1 beam own r0.rx_cross_section r0.min_rssi)
    (scanEmptyResult, 0, new_rng w.tick) with hF
  have hinit : ((scanEmptyResult, (0 : ℝ), new_rng w.tick) :
      ScanResult × ℝ × SeededRng).1.found = true → False := by
    intro hf
    simp [scanEmptyResult] at hf
  have hthr : F.1.found = true → F.2.1 > r0.min_rssi := by
    rw [hF]
    exact foldl_threshold stream w1 beam own r0.rx_cross_section r0.min_rssi w.ships
      (scanEmptyResult, 0, new_rng w.tick) (fun hf => absurd (hinit hf) id)
  refine ⟨F.1, draw_beam w1 { r0 with scanned := true } beam, F.2.1, F.2.2,
    scanO_eq stream w h r0 hr hsc, rfl, ?_, ?_⟩
  · intro hfound
    refine ⟨hthr hfound, ?_⟩
    intro u hu hteam
    have hune : u ≠ h := by
      intro he
      rw [he] at hteam
      exact hteam rfl
    have ht1 : (w1.getShip u).data.team ≠ own := by
      rw [hw1, setScanned_getShip_ne w h u hune]
      exact hteam
    by_cases hq : rssiVal w1 beam u r0.rx_cross_section > r0.min_rssi
    · exact (foldl_qualifying stream w1 beam own r0.rx_cross_section r0.min_rssi w.ships
        (scanEmptyResult, 0, new_rng w.tick) u hu ht1 hq).2
    · exact le_of_lt (lt_of_le_of_lt (not_lt.mp hq) (hthr hfound))
  · intro hall
    by_contra hnf
    have hfound : F.1.found = true := eq_true_of_ne_false hnf
    have hshape := foldl_shape stream w1 beam own r0.rx_cross_section r0.min_rssi w.tick
      w.ships (scanEmptyResult, 0, new_rng w.tick) (fun x hx => hx) rfl
      (fun hf => absurd (hinit hf) id) (by rw [← hF]; exact hfound)
    rw [← hF] at hshape
    obtain ⟨t, htmem, htteam, htrssi, _⟩ := hshape
    have htne : t ≠ h := by
      intro he
      rw [he] at htteam
      exact htteam ((setScanned_fields w h).2.2.2.1)
    have ht2 : (w.getShip t).data.team ≠ (w.getShip h).data.team := by
      rw [← setScanned_getShip_ne w h t htne]
      exact htteam
    have hle := hall t htmem ht2
    rw [htrssi] at hle
    exact absurd hle (not_le.mpr (hthr hfound))

theorem scan_strict_threshold_best_witness :
    ∃ result world' best rng',
      scanO exStream W0 0 = some (result, world') ∧
      W0.ships.foldl (scanStepT exStream (setScanned W0 0)
          (compute_beam radarA ((W0.getShip 0).position) ((W0.getShip 0).heading))
          ((W0.getShip 0).data.team) radarA.rx_cross_section radarA.min_rssi)
        (scanEmptyResult, 0, new_rng W0.tick) = (result, best, rng') ∧
      (result.found = true → best > radarA.min_rssi ∧
        ∀ u ∈ W0.ships, (W0.getShip u).data.team ≠ (W0.getShip 0).data.team →
          rssiVal (setScanned W0 0)
            (compute_beam radarA ((W0.getShip 0).position) ((W0.getShip 0).heading)) u
            radarA.rx_cross_section ≤ best) ∧
      ((∀ u ∈ W0.ships, (W0.getShip u).data.team ≠ (W0.getShip 0).data.team →
          rssiVal (setScanned W0 0)
            (compute_beam radarA ((W0.getShip 0).position) ((W0.getShip 0).heading)) u
            radarA.rx_cross_section ≤ radarA.min_rssi) →
        result.found = false) :=
  scan_strict_threshold_best exStream W0 0 radarA rfl rfl

/-- C7: whenever a scan returns a result with the found flag set, the detected
entity is a ship of a different team than the scanning ship: the returned
position and velocity are that opposing ship's true position and velocity plus
the injected noise. -/
theorem scan_detection_opposing_team (stream : Nat → Nat → ℝ) (w : World) (h : Nat)
    (res : ScanResult) (w' : World)
    (hscan : scanO stream w h = some (res, w')) (hf : res.found = true) :
    ∃ t ∈ w.ships, (w.getShip t).data.team ≠ (w.getShip h).data.team ∧
      ∃ best k,
        res.position = (w.getShip t).position +
          (stream w.tick k * (1 / best), stream w.tick (k + 1) * (1 / best)) ∧
        res.velocity = (w.getShip t).velocity +
          (stream w.tick (k + 2) * (1 / best), stream w.tick (k + 3) * (1 / best)) := by
  cases hrad : (w.getShip h).data.radar with
  | none =>
    have hemp : scanO stream w h = some (scanEmptyResult, w) := by simp [scanO, hrad]
    rw [hemp] at hscan
    have hres : scanEmptyResult = res := congrArg Prod.fst (Option.some.inj hscan)
    rw [← hres] at hf
    simp [scanEmptyResult] at hf
  | some r0 =>
    cases hsc : r0.scanned with
    | true =>
      have hemp : scanO stream w h = some (scanEmptyResult, w) := by simp [scanO, hrad, hsc]
      rw [hemp] at hscan
      have hres : scanEmptyResult = res := congrArg Prod.fst (Option.some.inj hscan)
      rw [← hres] at hf
      simp [scanEmptyResult] at hf
    | false =>
      rw [scanO_eq stream w h r0 hrad hsc] at hscan
      set w1 := setScanned w h with hw1
      set beam := compute_beam r0 ((w.getShip h).position) ((w.getShip h).heading) with hbeam
      set own := (w.getShip h).data.team with hown
      set F := w.ships.foldl (scanStepT stream w1 beam own r0.rx_cross_section r0.min_rssi)
        (scanEmptyResult, 0, new_rng w.tick) with hF
      have hres : F.1 = res := congrArg Prod.fst (Option.some.inj hscan)
      have hfound : F.1.found = true := by rw [hres]; exact hf
      have hinit : ((scanEmptyResult, (0 : ℝ), new_rng w.tick) :
          ScanResult × ℝ × SeededRng).1.found = true → False := by
        intro hfx
        simp [scanEmptyResult] at hfx
      have hshape := foldl_shape stream w1 beam own r0.rx_cross_section r0.min_rssi w.tick
        w.ships (scanEmptyResult, 0, new_rng w.tick) (fun x hx => hx) rfl
        (fun hfx => absurd (hinit hfx) id) (by rw [← hF]; exact hfound)
      rw [← hF] at hshape
      obtain ⟨t, htmem, htteam, htrssi, k, hpos, hvel⟩ := hshape
      have htne : t ≠ h := by
        intro he
        rw [he] at htteam
        exact htteam ((setScanned_fields w h).2.2.2.1)
      have hget : w1.getShip t = w.getShip t := setScanned_getShip_ne w h t htne
      refine ⟨t, htmem, ?_, F.2.1, k, ?_, ?_⟩
      · rw [← hget]
        exact htteam
      · rw [← hres, ← hget]
        exact hpos
      · rw [← hres, ← hget]
        exact hvel

theorem scan_detection_opposing_team_witness :
    ∃ t ∈ W0.ships, (W0.getShip t).data.team ≠ (W0.getShip 0).data.team ∧
      ∃ best k,
        (ScanResult.mk true
          ((1 : ℝ) + exStream 0 0 * (1 / 1), (0 : ℝ) + exStream 0 1 * (1 / 1))
          ((0 : ℝ) + exStream 0 2 * (1 / 1), (0 : ℝ) + exStream 0 3 * (1 / 1))).position =
          (W0.getShip t).position +
            (exStream W0.tick k * (1 / best), exStream W0.tick (k + 1) * (1 / best)) ∧
        (ScanResult.mk true
          ((1 : ℝ) + exStream 0 0 * (1 / 1), (0 : ℝ) + exStream 0 1 * (1 / 1))
          ((0 : ℝ) + exStream 0 2 * (1 / 1), (0 : ℝ) + exStream 0 3 * (1 / 1))).velocity =
          (W0.getShip t).velocity +
            (exStream W0.tick (k + 2) * (1 / best), exStream W0.tick (k + 3) * (1 / best)) :=
  scan_detection_opposing_team exStream W0 0
    (ScanResult.mk true
      ((1 : ℝ) + exStream 0 0 * (1 / 1), (0 : ℝ) + exStream 0 1 * (1 / 1))
      ((0 : ℝ) + exStream 0 2 * (1 / 1), (0 : ℝ) + exStream 0 3 * (1 / 1)))
    W0A (scanW0A exStream) rfl

theorem vnorm_scale (a b c : ℝ) : vnorm (a * c, b * c) = |c| * vnorm (a, b) := by
  show Real.sqrt ((a * c) ^ 2 + (b * c) ^ 2) = |c| * Real.sqrt (a ^ 2 + b ^ 2)
  have he : (a * c) ^ 2 + (b * c) ^ 2 = (a ^ 2 + b ^ 2) * c ^ 2 := by ring
  rw [he, Real.sqrt_mul (by positivity), Real.sqrt_sq_eq_abs, mul_comm]

theorem vnorm_noise (stream : Nat → Nat → ℝ) (rng : SeededRng) (rssi : ℝ) :
    vnorm (noise stream rng rssi).1 =
      |1 / rssi| * vnorm (stream rng.seed rng.index, stream rng.seed (rng.index + 1)) := by
  have h1 : (noise stream rng rssi).1 =
      (stream rng.seed rng.index * (1 / rssi),
       stream rng.seed (rng.index + 1) * (1 / rssi)) := rfl
  rw [h1, vnorm_scale]

/-- C8: a returned detection's position and velocity equal the target's true
values plus noise draws scaled by exactly the reciprocal of the returned best
signal strength; and for the same draws, a higher signal strength yields
injected noise of no larger (and, when the draws are nonzero, strictly
smaller) magnitude. -/
theorem scan_noise_inverse_rssi (stream : Nat → Nat → ℝ) (w : World) (h : Nat)
    (r0 : Radar) (hr : (w.getShip h).data.radar = some r0) (hsc : r0.scanned = false) :
    (∃ result world', scanO stream w h = some (result, world') ∧
      (result.found = true →
        ∃ t ∈ w.ships, ∃ best k,
          rssiVal (setScanned w h)
            (compute_beam r0 ((w.getShip h).position) ((w.getShip h).heading)) t
            r0.rx_cross_section = best ∧
          result.position = (w.getShip t).position +
            (stream w.tick k * (1 / best), stream w.tick (k + 1) * (1 / best)) ∧
          result.velocity = (w.getShip t).velocity +
            (stream w.tick (k + 2) * (1 / best), stream w.tick (k + 3) * (1 / best)))) ∧
    (∀ (rng : SeededRng) (r1 r2 : ℝ), 0 < r2 → r2 ≤ r1 →
      vnorm (noise stream rng r1).1 ≤ vnorm (noise stream rng r2).1) ∧
    (∀ (rng : SeededRng) (r1 r2 : ℝ), 0 < r2 → r2 < r1 →
      0 < vnorm (noise stream rng r2).1 →
      vnorm (noise stream rng r1).1 < vnorm (noise stream rng r2).1) := by
  refine ⟨?_, ?_, ?_⟩
  · set w1 := setScanned w h with hw1
    set beam := compute_beam r0 ((w.getShip h).position) ((w.getShip h).heading) with hbeam
    set own := (w.getShip h).data.team with hown
    set F := w.ships.foldl (scanStepT stream w1 beam own r0.rx_cross_section r0.min_rssi)
      (scanEmptyResult, 0, new_rng w.tick) with hF
    refine ⟨F.1, draw_beam w1 { r0 with scanned := true } beam,
      scanO_eq stream w h r0 hr hsc, ?_⟩
    intro hfound
    have hinit : ((scanEmptyResult, (0 : ℝ), new_rng w.tick) :
        ScanResult × ℝ × SeededRng).1.found = true → False := by
      intro hfx
      simp [scanEmptyResult] at hfx
    have hshape := foldl_shape stream w1 beam own r0.rx_cross_section r0.min_rssi w.tick
      w.ships (scanEmptyResult, 0, new_rng w.tick) (fun x hx => hx) rfl
      (fun hfx => absurd (hinit hfx) id) (by rw [← hF]; exact hfound)
    rw [← hF] at hshape
    obtain ⟨t, htmem, htteam, htrssi, k, hpos, hvel⟩ := hshape
    have htne : t ≠ h := by
      intro he
      rw [he] at htteam
      exact htteam ((setScanned_fields w h).2.2.2.1)
    have hget : w1.getShip t = w.getShip t := setScanned_getShip_ne w h t htne
    refine ⟨t, htmem, F.2.1, k, htrssi, ?_, ?_⟩
    · rw [← hget]
      exact hpos
    · rw [← hget]
      exact hvel
  · intro rng r1 r2 h2 hle
    rw [vnorm_noise, vnorm_noise]
    have hr1 : (0 : ℝ) < r1 := lt_of_lt_of_le h2 hle
    apply mul_le_mul_of_nonneg_right ?_ (Real.sqrt_nonneg _)
    rw [abs_of_pos (by positivity), abs_of_pos (by positivity)]
    exact one_div_le_one_div_of_le h2 hle
  · intro rng r1 r2 h2 hlt hpos
    have hr1 : (0 : ℝ) < r1 := lt_trans h2 hlt
    rw [vnorm_noise] at hpos
    rw [vnorm_noise, vnorm_noise]
    have hV : 0 < vnorm (stream rng.seed rng.index, stream rng.seed (rng.index + 1)) := by
      rcases lt_or_eq_of_le (Real.sqrt_nonneg
        ((stream rng.seed rng.index) ^ 2 + (stream rng.seed (rng.index + 1)) ^ 2)) with hgt | heq
      · exact hgt
      · exfalso
        have h0 : vnorm (stream rng.seed rng.index, stream rng.seed (rng.index + 1)) = 0 :=
          heq.symm
        rw [h0, mul_zero] at hpos
        exact lt_irrefl 0 hpos
    apply mul_lt_mul_of_pos_right ?_ hV
    rw [abs_of_pos (by positivity), abs_of_pos (by positivity)]
    exact one_div_lt_one_div_of_lt h2 hlt

theorem scan_noise_inverse_rssi_witness :
    (∃ result world', scanO exStream W0 0 = some (result, world') ∧
      (result.found = true →
        ∃ t ∈ W0.ships, ∃ best k,
          rssiVal (setScanned W0 0)
            (compute_beam radarA ((W0.getShip 0).position) ((W0.getShip 0).heading)) t
            radarA.rx_cross_section = best ∧
          result.position = (W0.getShip t).position +
            (exStream W0.tick k * (1 / best), exStream W0.tick (k + 1) * (1 / best)) ∧
          result.velocity = (W0.getShip t).velocity +
            (exStream W0.tick (k + 2) * (1 / best),
             exStream W0.tick (k + 3) * (1 / best)))) ∧
    (∀ (rng : SeededRng) (r1 r2 : ℝ), 0 < r2 → r2 ≤ r1 →
      vnorm (noise exStream rng r1).1 ≤ vnorm (noise exStream rng r2).1) ∧
    (∀ (rng : SeededRng) (r1 r2 : ℝ), 0 < r2 → r2 < r1 →
      0 < vnorm (noise exStream rng r2).1 →
      vnorm (noise exStream rng r1).1 < vnorm (noise exStream rng r2).1) :=
  scan_noise_inverse_rssi exStream W0 0 radarA rfl rfl

theorem scanStepT_congr (s1 s2 : Nat → Nat → ℝ) (w : World) (beam : RadarBeam)
    (own_team : Nat) (rx min_rssi : ℝ) (t : Nat) (hs : ∀ i, s1 t i = s2 t i)
    (acc : ScanResult × ℝ × SeededRng) (other : Nat) (hacc : acc.2.2.seed = t) :
    scanStepT s1 w beam own_team rx min_rssi acc other =
      scanStepT s2 w beam own_team rx min_rssi acc other := by
  by_cases ht : (w.getShip other).data.team = own_team
  · rw [scanStepT_of_skip s1 w beam own_team rx min_rssi acc other ht,
      scanStepT_of_skip s2 w beam own_team rx min_rssi acc other ht]
  · by_cases hc : rssiVal w beam other rx > min_rssi ∧
        (acc.1.found = false ∨ rssiVal w beam other rx > acc.2.1)
    · rw [scanStepT_of_hit s1 w beam own_team rx min_rssi acc other ht hc,
        scanStepT_of_hit s2 w beam own_team rx min_rssi acc other ht hc]
      have hn : noise s1 acc.2.2 (rssiVal w beam other rx) =
          noise s2 acc.2.2 (rssiVal w beam other rx) := by
        rw [noise_eval2, noise_eval2, hacc, hs, hs]
      have hn2 : noise s1 (noise s2 acc.2.2 (rssiVal w beam other rx)).2
            (rssiVal w beam other rx) =
          noise s2 (noise s2 acc.2.2 (rssiVal w beam other rx)).2
            (rssiVal w beam other rx) := by
        rw [noise_rng, noise_eval2, noise_eval2]
        show ((s1 _ _ * _, s1 _ _ * _), _) = ((s2 _ _ * _, s2 _ _ * _), _)
        rw [hacc, hs, hs]
      rw [hn, hn2]
    · rw [scanStepT_of_miss s1 w beam own_team rx min_rssi acc other ht hc,
        scanStepT_of_miss s2 w beam own_team rx min_rssi acc other ht hc]

theorem foldl_congr_stream (s1 s2 : Nat → Nat → ℝ) (w : World) (beam : RadarBeam)
    (own_team : Nat) (rx min_rssi : ℝ) (t : Nat) (hs : ∀ i, s1 t i = s2 t i)
    (l : List Nat) :
    ∀ acc, acc.2.2.seed = t →
      l.foldl (scanStepT s1 w beam own_team rx min_rssi) acc =
        l.foldl (scanStepT s2 w beam own_team rx min_rssi) acc := by
  induction l with
  | nil => intro acc _; rfl
  | cons x xs ih =>
    intro acc hacc
    rw [List.foldl_cons, List.foldl_cons,
      scanStepT_congr s1 s2 w beam own_team rx min_rssi t hs acc x hacc]
    exact ih _ (by rw [scanStepT_seed]; exact hacc)

/-- C2 (amended): each `scan` call reseeds its own generator from the current
step counter, so (i) a scan's outcome depends on the draw stream only through
the draws of the current step's seed — for a fixed step index and scan order
results are reproducible — and (ii) the state a scan leaves behind is
independent of the draws altogether, so a second scan in the same step is
unaffected by how many draws the first consumed: the two scans draw identical
streams, each restarted from the per-step seed, rather than one continuing
shared stream or independent per-entity streams. -/
theorem scan_rng_reseeded_per_scan :
    (∀ (s1 s2 : Nat → Nat → ℝ) (w : World) (h : Nat),
      (∀ i, s1 w.tick i = s2 w.tick i) → scanO s1 w h = scanO s2 w h) ∧
    (∀ (s1 s2 : Nat → Nat → ℝ) (w : World) (h : Nat),
      Option.map Prod.snd (scanO s1 w h) = Option.map Prod.snd (scanO s2 w h)) := by
  constructor
  · intro s1 s2 w h hs
    cases hrad : (w.getShip h).data.radar with
    | none => simp [scanO, hrad]
    | some r0 =>
      cases hsc : r0.scanned with
      | true => simp [scanO, hrad, hsc]
      | false =>
        rw [scanO_eq s1 w h r0 hrad hsc, scanO_eq s2 w h r0 hrad hsc,
          foldl_congr_stream s1 s2 (setScanned w h)
            (compute_beam r0 ((w.getShip h).position) ((w.getShip h).heading))
            ((w.getShip h).data.team) r0.rx_cross_section r0.min_rssi w.tick hs
            w.ships (scanEmptyResult, 0, new_rng w.tick) rfl]
  · intro s1 s2 w h
    cases hrad : (w.getShip h).data.radar with
    | none => simp [scanO, hrad]
    | some r0 =>
      cases hsc : r0.scanned with
      | true => simp [scanO, hrad, hsc]
      | false =>
        rw [scanO_eq s1 w h r0 hrad hsc, scanO_eq s2 w h r0 hrad hsc]
        rfl

theorem scan_rng_reseeded_per_scan_witness :
    scanO exStream2 W0 0 = scanO exStream W0 0 :=
  scan_rng_reseeded_per_scan.1 exStream2 exStream W0 0
    (fun i => by
      show (if (0 : Nat) = 0 then (i : ℝ) else 7) = (i : ℝ)
      simp)

/-- C2 (counterexample): against the claim that two scans by different sensors
within the same step draw from one shared sequential stream reseeded once per
World step, the code's pair of scan results differs from the shared-stream
pair on the two-ship world with the stream whose draw `i` is `i`: under the
code the second scan restarts at draw 0 (its noised position is `(0, 1)`),
while a shared continuing stream would give it draws 4 and 5 (position
`(4, 5)`). -/
theorem scan_shared_stream_counterexample :
    scanPairCode exStream W0 0 1 ≠ scanPairSpec exStream W0 0 1 := by
  rw [scanPairCode_eval, scanPairSpec_eval]
  intro heq
  have h1 := Option.some.inj heq
  have h2 : ((0 : ℝ), (1 : ℝ)) = ((4 : ℝ), (5 : ℝ)) :=
    congrArg (fun p => p.2.position) h1
  have h3 : (0 : ℝ) = 4 := congrArg Prod.fst h2
  norm_num at h3

theorem scan_consumed_idempotent_witness :
    scanO exStream W0consumed 0 = some (scanEmptyResult, W0consumed) :=
  (scan_consumed_idempotent exStream W0consumed 0 { radarA with scanned := true }
    (setScanned_radar W0 0 radarA rfl)).1 rfl

theorem compute_rssi_formula_witness :
    compute_rssi W0 (compute_beam radarA ((0 : ℝ), (0 : ℝ)) 0) 0 1 = some 1 := by
  have hsub : (W0.getShip 1).position -
      (compute_beam radarA ((0 : ℝ), (0 : ℝ)) 0).center = ((1 : ℝ), (0 : ℝ)) := by
    show ((1 : ℝ) - 0, (0 : ℝ) - 0) = ((1 : ℝ), (0 : ℝ))
    norm_num
  have hang : ¬(vangle ((W0.getShip 1).position -
      (compute_beam radarA ((0 : ℝ), (0 : ℝ)) 0).center)
      (compute_beam radarA ((0 : ℝ), (0 : ℝ)) 0).center_vec >
      (compute_beam radarA ((0 : ℝ), (0 : ℝ)) 0).width * 0.5) := by
    rw [hsub, beamA_center_vec, vangle_one_zero]
    show ¬((0 : ℝ) > 1 * 0.5)
    norm_num
  have h := (compute_rssi_formula W0 (compute_beam radarA ((0 : ℝ), (0 : ℝ)) 0) 0 1
    radarA rfl).2 hang
  rw [h]
  congr 1
  show TAU * 1 * 1 / (2 * Real.pi * 1 * (((1 : ℝ) - 0) ^ 2 + ((0 : ℝ) - 0) ^ 2)) = 1
  unfold TAU
  norm_num
  rw [div_self (by positivity)]

theorem set_width_clamps_witness :
    ∃ r1 : Radar, ((set_width W0 0 1).getShip 0).data.radar = some r1 ∧
      r1.width = 1 := by
  obtain ⟨r1, hsome, _, _, _, _, _, _, _, h3⟩ := set_width_clamps W0 0 1 radarA rfl
  refine ⟨r1, hsome, h3 ?_ ?_⟩
  · intro hlt
    nlinarith [Real.pi_gt_three, Real.pi_lt_d2]
  · intro hgt
    nlinarith [Real.pi_gt_three]

end Oort
